import Mathlib

/-!
# Verification of the authentication / session / rate-limiting core

Shallow embedding of the security subsystem of the encrypted note-storage
application: the in-process rate limiter, input sanitization, the
authenticator (`login`, `verifySession`), the security-header middleware,
and the HTTP route handlers that compose them.

Conventions of the embedding:
* Timestamps are `Nat` milliseconds since the epoch (`Date.now()`).
* The JavaScript `Map` used by the rate limiter is an insertion-ordered
  association list; `Map.get` / `Map.set` / `Map.delete` keep that order,
  exactly as in V8.
* Database tables are lists of rows; SQL `UPDATE ... WHERE id = $n` is a
  `List.map` that rewrites the matching rows, `INSERT` appends, a `SELECT`
  with a unique-key predicate is `List.find?`.
* `throw new Error(msg)` in the authenticator becomes `Except.error` of an
  error datatype whose `message` rendering reproduces the thrown strings.
* bcrypt verification and `crypto.randomBytes` are external capabilities:
  they enter as an explicit `verify` function and an explicit `entropy`
  byte list; the code under verification never inspects their internals.
-/

namespace SecureVault

/-! ## Rate limiter (`src/lib/security.ts`, `rateLimit`) -/

/-- One entry of the module-level `rateLimitStore` map:
`{ count: number; resetTime: number }`. -/
structure RLRecord where
  count : Nat
  resetTime : Nat
deriving Repr, DecidableEq

/-- The module-level `rateLimitStore : Map<string, {count, resetTime}>`,
as an insertion-ordered association list.  There is a single such map in
the process, shared by every caller of `rateLimit` regardless of which
budget (`maxRequests`, `windowMs`) the caller passes. -/
abbrev RateLimitStore := List (String × RLRecord)

/-- `Map.get`: first (and only) binding of the key. -/
def storeGet : RateLimitStore → String → Option RLRecord
  | [], _ => none
  | p :: rest, k => if p.1 == k then some p.2 else storeGet rest k

/-- `Map.set`: replace the existing binding in place, else append. -/
def storeSet : RateLimitStore → String → RLRecord → RateLimitStore
  | [], k, v => [(k, v)]
  | p :: rest, k, v => if p.1 == k then (k, v) :: rest else p :: storeSet rest k v

def RATE_LIMIT_WINDOW_MS : Nat := 15 * 60 * 1000
def MAX_REQUESTS_PER_WINDOW : Nat := 100

/-- Result record of `rateLimit`.  `remaining` is an `Int` because the
JavaScript subtraction `maxRequests - count` is not clamped at zero. -/
structure RateLimitResult where
  allowed : Bool
  remaining : Int
  resetTime : Nat
deriving Repr, DecidableEq

/-- `rateLimit` from `src/lib/security.ts` (lines 33-81), acting on an
explicit store (the code closes over the module-level map) and an explicit
`now` (`Date.now()`).  The client key `ip` is `getClientIP(request)`.
Returns the result together with the store after the call. -/
def rateLimit (store : RateLimitStore) (ip : String) (now : Nat)
    (maxRequests : Nat) (windowMs : Nat) : RateLimitResult × RateLimitStore :=
  match storeGet store ip with
  | none =>
      let s1 := storeSet store ip ⟨1, now + windowMs⟩
      let s2 := if s1.length > 10000
        then s1.filter (fun p => decide (now ≤ p.2.resetTime)) else s1
      (⟨true, (maxRequests : Int) - 1, now + windowMs⟩, s2)
  | some record =>
      if now > record.resetTime then
        let s1 := storeSet store ip ⟨1, now + windowMs⟩
        let s2 := if s1.length > 10000
          then s1.filter (fun p => decide (now ≤ p.2.resetTime)) else s1
        (⟨true, (maxRequests : Int) - 1, now + windowMs⟩, s2)
      else if record.count ≥ maxRequests then
        (⟨false, 0, record.resetTime⟩, store)
      else
        (⟨true, (maxRequests : Int) - (record.count + 1), record.resetTime⟩,
         storeSet store ip ⟨record.count + 1, record.resetTime⟩)

lemma storeGet_storeSet_self (s : RateLimitStore) (k : String) (v : RLRecord) :
    storeGet (storeSet s k v) k = some v := by
  induction s with
  | nil => simp [storeSet, storeGet]
  | cons p rest ih =>
      by_cases h : p.1 == k
      · simp [storeSet, storeGet, h]
      · simp [storeSet, storeGet, h, ih]

lemma storeGet_filter (s : RateLimitStore) (k : String) (v : RLRecord)
    (pred : String × RLRecord → Bool)
    (hget : storeGet s k = some v) (hp : pred (k, v) = true) :
    storeGet (s.filter pred) k = some v := by
  induction s with
  | nil => simp [storeGet] at hget
  | cons p rest ih =>
      simp only [storeGet] at hget
      by_cases h : p.1 == k
      · rw [if_pos h] at hget
        have hk : p.1 = k := by simpa using h
        have hv : p.2 = v := by simpa using hget
        have hpv : p = (k, v) := by
          cases p; simp_all
        subst hpv
        simp [List.filter, hp, storeGet]
      · rw [if_neg h] at hget
        by_cases hkeep : pred p
        · simp [List.filter, hkeep, storeGet, h, ih hget]
        · simp [List.filter, hkeep, ih hget]

/-- The store after the fresh-record branch (new key, or expired window),
including the opportunistic compaction, still maps the key to the fresh
record: the fresh record is never purged because `resetTime = now + windowMs ≥ now`. -/
lemma storeGet_fresh (store : RateLimitStore) (ip : String) (now windowMs : Nat) :
    storeGet
      (if (storeSet store ip ⟨1, now + windowMs⟩).length > 10000
        then (storeSet store ip ⟨1, now + windowMs⟩).filter
          (fun p => decide (now ≤ p.2.resetTime))
        else storeSet store ip ⟨1, now + windowMs⟩) ip
    = some ⟨1, now + windowMs⟩ := by
  by_cases h : (storeSet store ip ⟨1, now + windowMs⟩).length > 10000
  · rw [if_pos h]
    exact storeGet_filter _ _ _ _ (storeGet_storeSet_self store ip _)
      (by simp [Nat.le_add_right])
  · rw [if_neg h]
    exact storeGet_storeSet_self store ip _

/-- Fresh-record branch when the key is absent. -/
lemma rateLimit_fresh_none (store : RateLimitStore) (ip : String)
    (now maxRequests windowMs : Nat) (hget : storeGet store ip = none) :
    (rateLimit store ip now maxRequests windowMs).1
        = ⟨true, (maxRequests : Int) - 1, now + windowMs⟩ ∧
    storeGet (rateLimit store ip now maxRequests windowMs).2 ip
        = some ⟨1, now + windowMs⟩ := by
  unfold rateLimit
  rw [hget]
  exact ⟨rfl, storeGet_fresh store ip now windowMs⟩

/-- Fresh-record branch when the stored window has expired. -/
lemma rateLimit_fresh_expired (store : RateLimitStore) (ip : String)
    (now maxRequests windowMs : Nat) (r : RLRecord)
    (hget : storeGet store ip = some r) (hexp : now > r.resetTime) :
    (rateLimit store ip now maxRequests windowMs).1
        = ⟨true, (maxRequests : Int) - 1, now + windowMs⟩ ∧
    storeGet (rateLimit store ip now maxRequests windowMs).2 ip
        = some ⟨1, now + windowMs⟩ := by
  simp only [rateLimit, hget]
  rw [if_pos hexp]
  exact ⟨rfl, storeGet_fresh store ip now windowMs⟩

/-- Rejection branch: live window, count at the limit; store untouched. -/
lemma rateLimit_reject (store : RateLimitStore) (ip : String)
    (now maxRequests windowMs : Nat) (r : RLRecord)
    (hget : storeGet store ip = some r) (hlive : now ≤ r.resetTime)
    (hfull : r.count ≥ maxRequests) :
    rateLimit store ip now maxRequests windowMs = (⟨false, 0, r.resetTime⟩, store) := by
  simp only [rateLimit, hget]
  rw [if_neg (by omega), if_pos hfull]

/-- Counting branch: live window, count below the limit. -/
lemma rateLimit_increment (store : RateLimitStore) (ip : String)
    (now maxRequests windowMs : Nat) (r : RLRecord)
    (hget : storeGet store ip = some r) (hlive : now ≤ r.resetTime)
    (hroom : r.count < maxRequests) :
    rateLimit store ip now maxRequests windowMs
      = (⟨true, (maxRequests : Int) - (r.count + 1), r.resetTime⟩,
         storeSet store ip ⟨r.count + 1, r.resetTime⟩) := by
  simp only [rateLimit, hget]
  rw [if_neg (by omega), if_neg (by omega)]

/-! ## Input sanitization (`src/lib/security.ts`, `sanitizeInput`) -/

/-- The character set stripped by
`.replace(/\0/g, '').replace(/[\x00-\x08\x0B\x0C\x0E-\x1F\x7F]/g, '')`:
NUL and the control characters other than TAB (9), LF (10) and CR (13). -/
def removableControl (c : Char) : Bool :=
  decide (c.toNat ≤ 8) || decide (c.toNat = 11) || decide (c.toNat = 12) ||
  (decide (14 ≤ c.toNat) && decide (c.toNat ≤ 31)) || decide (c.toNat = 127)

/-- The JavaScript `String.prototype.trim` whitespace set (WhiteSpace and
LineTerminator code points). -/
def isJsWhitespace (c : Char) : Bool :=
  decide (c.toNat = 9) || decide (c.toNat = 10) || decide (c.toNat = 11) ||
  decide (c.toNat = 12) || decide (c.toNat = 13) || decide (c.toNat = 32) ||
  decide (c.toNat = 160) || decide (c.toNat = 5760) ||
  (decide (8192 ≤ c.toNat) && decide (c.toNat ≤ 8202)) ||
  decide (c.toNat = 8232) || decide (c.toNat = 8233) || decide (c.toNat = 8239) ||
  decide (c.toNat = 8287) || decide (c.toNat = 12288) || decide (c.toNat = 65279)

/-- JavaScript `s.trim()`: strip leading and trailing whitespace. -/
def jsTrim (s : String) : String :=
  String.mk (((s.toList.dropWhile isJsWhitespace).reverse.dropWhile isJsWhitespace).reverse)

/-- `sanitizeInput` from `src/lib/security.ts` (lines 86-108).  Throws
(`Except.error`) on empty input or input exceeding `maxLength`; strips the
removable control characters; but falls back to the original input when
stripping left only whitespace while the original had visible content. -/
def sanitizeInput (input : String) (maxLength : Nat) : Except String String :=
  if input = "" then .error "Invalid input"
  else if input.length > maxLength then
    .error ("Input exceeds maximum length of " ++ toString maxLength ++ " characters")
  else
    let sanitized := String.mk (input.toList.filter (fun c => !(removableControl c)))
    if (jsTrim sanitized).length = 0 ∧ (jsTrim input).length ≠ 0 then .ok input
    else .ok sanitized

/-! ## Session tokens (`src/lib/auth.ts`, `generateSessionToken`) -/

/-- One lowercase hexadecimal digit, as produced by Node's
`Buffer.toString('hex')`. -/
def hexDigit (n : Nat) : Char :=
  if n < 10 then Char.ofNat (48 + n) else Char.ofNat (87 + n)

/-- Two-digit lowercase hex encoding of one byte. -/
def hexByte (b : Nat) : List Char := [hexDigit (b / 16), hexDigit (b % 16)]

/-- `Buffer.toString('hex')` over a byte list. -/
def hexEncode (bytes : List Nat) : String := String.mk (bytes.flatMap hexByte)

/-- `generateSessionToken`: `crypto.randomBytes(32).toString('hex')`.
The 32 random bytes enter as the explicit `entropy` argument; the token is
a function of that entropy alone. -/
def generateSessionToken (entropy : List Nat) : String := hexEncode entropy

/-- Lowercase-hexadecimal-digit test (`0-9`, `a-f`). -/
def isHexDigit (c : Char) : Bool :=
  (decide (48 ≤ c.toNat) && decide (c.toNat ≤ 57)) ||
  (decide (97 ≤ c.toNat) && decide (c.toNat ≤ 102))

lemma hexEncode_length (bytes : List Nat) : (hexEncode bytes).length = 2 * bytes.length := by
  induction bytes with
  | nil => rfl
  | cons b rest ih =>
      show (hexByte b ++ rest.flatMap hexByte).length = 2 * (rest.length + 1)
      have : (rest.flatMap hexByte).length = 2 * rest.length := ih
      simp [hexByte, this]
      omega

lemma hexDigit_isHexDigit (n : Nat) (h : n < 16) : isHexDigit (hexDigit n) = true := by
  interval_cases n <;> decide

lemma hexEncode_all_hex (bytes : List Nat) (hb : ∀ b ∈ bytes, b < 256) :
    ∀ c ∈ (hexEncode bytes).toList, isHexDigit c = true := by
  intro c hc
  have hc' : c ∈ bytes.flatMap hexByte := hc
  rcases List.mem_flatMap.mp hc' with ⟨b, hbmem, hcb⟩
  have hblt : b < 256 := hb b hbmem
  simp only [hexByte, List.mem_cons, List.not_mem_nil, or_false] at hcb
  rcases hcb with h | h <;> subst h
  · exact hexDigit_isHexDigit _ (by omega)
  · exact hexDigit_isHexDigit _ (Nat.mod_lt _ (by omega))

/-! ## Authenticator (`src/lib/auth.ts`) -/

/-- A row of the `users` table (the columns `login` reads and writes). -/
structure UserRow where
  id : Nat
  username : String
  password_hash : String
  failed_login_attempts : Nat
  locked_until : Option Nat
  created_at : Nat
  last_login : Option Nat
deriving Repr, DecidableEq

/-- A row of the `sessions` table (the columns the authenticator touches). -/
structure SessionRow where
  user_id : Nat
  session_token : String
  expires_at : Nat
  ip_address : Option String
  user_agent : Option String
deriving Repr, DecidableEq

/-- The persistent state the authenticator reads and writes. -/
structure DB where
  users : List UserRow
  sessions : List SessionRow
deriving Repr, DecidableEq

def SESSION_DURATION_MS : Nat := 24 * 60 * 60 * 1000
def MAX_FAILED_ATTEMPTS : Nat := 5
def LOCKOUT_DURATION_MS : Nat := 15 * 60 * 1000

/-- The errors `login` throws.  `accountLocked` carries the remaining
lockout minutes interpolated into the thrown message. -/
inductive LoginError where
  | invalidCredentials : LoginError
  | accountLocked : Nat → LoginError
deriving Repr, DecidableEq

/-- The `Error.message` string of each thrown error, exactly as the code
builds it. -/
def LoginError.message : LoginError → String
  | .invalidCredentials => "Invalid credentials"
  | .accountLocked m =>
      "Account is locked. Please try again in " ++ toString m ++ " minutes."

/-- The public identity returned on success (`id`, `username`, `created_at`). -/
structure AuthUser where
  id : Nat
  username : String
  created_at : Nat
deriving Repr, DecidableEq

structure LoginSuccess where
  user : AuthUser
  sessionToken : String
deriving Repr, DecidableEq

/-- `Math.ceil((lockedUntil - now) / 1000 / 60)` for a positive
millisecond difference: minutes rounded up. -/
def ceilMinutes (diffMs : Nat) : Nat := (diffMs + 59999) / 60000

/-- The lock check `user.locked_until && new Date(user.locked_until) > new Date()`:
`some m` (remaining minutes, rounded up) when the account is still locked,
`none` otherwise. -/
def lockedRemaining (user : UserRow) (now : Nat) : Option Nat :=
  match user.locked_until with
  | some t => if now < t then some (ceilMinutes (t - now)) else none
  | none => none

/-- `login` from `src/lib/auth.ts` (lines 517-594 of the security module
concatenation).  `verify` is the bcrypt capability `verifyPassword`,
`entropy` the 32 bytes drawn by `generateSessionToken`, `now` is
`Date.now()`.  Returns the thrown error or the success value, always
together with the database as left behind (failed-attempt updates are
persisted before the function throws). -/
def login (db : DB) (verify : String → String → Bool) (now : Nat)
    (entropy : List Nat) (username password : String)
    (ipAddress userAgent : Option String) :
    Except LoginError LoginSuccess × DB :=
  match db.users.find? (fun u => u.username == username) with
  | none => (.error .invalidCredentials, db)
  | some user =>
      match lockedRemaining user now with
      | some m => (.error (.accountLocked m), db)
      | none =>
          if verify password user.password_hash = false then
            let newFailedAttempts := user.failed_login_attempts + 1
            let lockedUntil := if newFailedAttempts ≥ MAX_FAILED_ATTEMPTS
              then some (now + LOCKOUT_DURATION_MS) else none
            let updatedUsers := db.users.map (fun u =>
              if u.id = user.id then
                { u with failed_login_attempts := newFailedAttempts,
                         locked_until := lockedUntil }
              else u)
            (.error .invalidCredentials, ⟨updatedUsers, db.sessions⟩)
          else
            let updatedUsers := db.users.map (fun u =>
              if u.id = user.id then
                { u with failed_login_attempts := 0, locked_until := none,
                         last_login := some now }
              else u)
            let sessionToken := generateSessionToken entropy
            let expiresAt := now + SESSION_DURATION_MS
            (.ok ⟨⟨user.id, user.username, user.created_at⟩, sessionToken⟩,
             ⟨updatedUsers,
              db.sessions ++ [⟨user.id, sessionToken, expiresAt, ipAddress, userAgent⟩]⟩)

/-- `verifySession` from `src/lib/auth.ts` (lines 599-623): empty-token
guard, then the `SELECT ... FROM sessions s JOIN users u ON s.user_id = u.id
WHERE s.session_token = $1 AND s.expires_at > NOW()` lookup.  The function
issues no write, so it returns the database unchanged alongside the result. -/
def verifySession (db : DB) (now : Nat) (sessionToken : String) :
    Option AuthUser × DB :=
  if sessionToken = "" then (none, db)
  else
    match db.sessions.find? (fun s =>
        s.session_token == sessionToken && decide (now < s.expires_at)) with
    | none => (none, db)
    | some s =>
        match db.users.find? (fun u => u.id == s.user_id) with
        | none => (none, db)
        | some u => (some ⟨u.id, u.username, u.created_at⟩, db)

/-! ## Responses and security headers (`src/lib/security.ts`,
`setSecurityHeaders`; `NextResponse.json`) -/

/-- An outward HTTP response: status, JSON body (the `error` or `message`
text), header map and cookie jar. -/
structure Response where
  status : Nat
  body : String
  headers : List (String × String)
  cookies : List (String × String)
deriving Repr, DecidableEq

/-- `response.headers.set(k, v)`: overwrite in place or append. -/
def headerSet : List (String × String) → String → String → List (String × String)
  | [], k, v => [(k, v)]
  | p :: rest, k, v => if p.1 == k then (k, v) :: rest else p :: headerSet rest k v

/-- `response.headers.get(k)`. -/
def headerGet (hs : List (String × String)) (k : String) : Option String :=
  (hs.find? (fun p => p.1 == k)).map (fun p => p.2)

/-- `NextResponse.json(body, { status })`: a fresh response with no
headers or cookies of interest. -/
def jsonResponse (status : Nat) (body : String) : Response :=
  ⟨status, body, [], []⟩

/-- `response.cookies.set(name, value, options)`. -/
def setCookie (r : Response) (name value : String) : Response :=
  { r with cookies := r.cookies ++ [(name, value)] }

/-- `setSecurityHeaders` from `src/lib/security.ts` (lines 168-200): the
seven fixed security headers stamped onto the response. -/
def setSecurityHeaders (r : Response) : Response :=
  let hs :=
    headerSet (headerSet (headerSet (headerSet (headerSet (headerSet (headerSet
      r.headers
      "X-Frame-Options" "DENY")
      "X-Content-Type-Options" "nosniff")
      "X-XSS-Protection" "1; mode=block")
      "Strict-Transport-Security" "max-age=31536000; includeSubDomains; preload")
      "Content-Security-Policy"
        "default-src \x27self\x27; script-src \x27self\x27 \x27unsafe-inline\x27 \x27unsafe-eval\x27; style-src \x27self\x27 \x27unsafe-inline\x27; img-src \x27self\x27 data:; font-src \x27self\x27; connect-src \x27self\x27;")
      "Referrer-Policy" "strict-origin-when-cross-origin")
      "Permissions-Policy" "geolocation=(), microphone=(), camera=()"
  { r with headers := hs }

/-- The fixed header set the spec requires on every response. -/
def requiredSecurityHeaders : List (String × String) :=
  [("X-Frame-Options", "DENY"),
   ("X-Content-Type-Options", "nosniff"),
   ("X-XSS-Protection", "1; mode=block"),
   ("Strict-Transport-Security", "max-age=31536000; includeSubDomains; preload"),
   ("Content-Security-Policy",
    "default-src \x27self\x27; script-src \x27self\x27 \x27unsafe-inline\x27 \x27unsafe-eval\x27; style-src \x27self\x27 \x27unsafe-inline\x27; img-src \x27self\x27 data:; font-src \x27self\x27; connect-src \x27self\x27;"),
   ("Referrer-Policy", "strict-origin-when-cross-origin"),
   ("Permissions-Policy", "geolocation=(), microphone=(), camera=()")]

/-- The response carries every required security header with its value. -/
def hasSecurityHeaders (r : Response) : Bool :=
  requiredSecurityHeaders.all (fun p => headerGet r.headers p.1 == some p.2)

set_option maxRecDepth 8192 in
lemma hasSecurityHeaders_set_json (status : Nat) (body : String) :
    hasSecurityHeaders (setSecurityHeaders (jsonResponse status body)) = true := rfl

lemma hasSecurityHeaders_setCookie (r : Response) (name value : String) :
    hasSecurityHeaders (setCookie r name value) = hasSecurityHeaders r := rfl

/-! ## Route handlers -/

/-- Outcome of `await request.json()` followed by the destructuring
`const { username, password } = body`: either the JSON parse threw, or the
two fields (absent/falsy fields are the empty string). -/
inductive LoginBody where
  | parseError : LoginBody
  | fields : String → String → LoginBody

/-- The login route `POST` handler (`src/app/api/auth/login/route.ts`):
auth-class rate limit (5 per 15 minutes) keyed by the client IP against
the one shared store, field presence check, username sanitization, the
`login` call, cookie issuance — and a `catch` that converts every thrown
error (JSON parse, sanitization, and every `login` failure including
`AccountLocked`) into the one generic `401 Invalid credentials` response.
Every path wraps its response in `setSecurityHeaders`.  Returns the
response, the rate-limit store after the call, and the database after the
call. -/
def loginRoutePOST (rlStore : RateLimitStore) (db : DB)
    (verify : String → String → Bool) (now : Nat) (entropy : List Nat)
    (ip : String) (body : LoginBody) (userAgent : Option String) :
    Response × RateLimitStore × DB :=
  let rl := rateLimit rlStore ip now 5 (15 * 60 * 1000)
  if rl.1.allowed = false then
    (setSecurityHeaders
      (jsonResponse 429 "Too many login attempts. Please try again later."),
     rl.2, db)
  else
    match body with
    | .parseError =>
        (setSecurityHeaders (jsonResponse 401 "Invalid credentials"), rl.2, db)
    | .fields username password =>
        if username = "" ∨ password = "" then
          (setSecurityHeaders (jsonResponse 400 "Username and password are required"),
           rl.2, db)
        else
          match sanitizeInput username 255 with
          | .error _ =>
              (setSecurityHeaders (jsonResponse 401 "Invalid credentials"), rl.2, db)
          | .ok sanitizedUsername =>
              match login db verify now entropy sanitizedUsername password
                  (some ip) userAgent with
              | (.error _, db2) =>
                  (setSecurityHeaders (jsonResponse 401 "Invalid credentials"),
                   rl.2, db2)
              | (.ok success, db2) =>
                  (setCookie
                    (setSecurityHeaders (jsonResponse 200 "Login successful"))
                    "session_token" success.sessionToken,
                   rl.2, db2)

/-- The texts collection `GET` handler (`src/app/api/texts/route.ts`):
general rate limit (default 100 per 15 minutes) against the same shared
store, session-cookie presence, session verification, then the
owner-scoped query/decryption step.  That data step is an external
collaborator here; its outcome enters as `opResult` (`.error` for a
thrown query/decryption failure, caught as a 500).  Every path wraps its
response in `setSecurityHeaders`. -/
def textsGET (rlStore : RateLimitStore) (db : DB) (now : Nat) (ip : String)
    (cookieToken : Option String) (opResult : Except String String) :
    Response × RateLimitStore :=
  let rl := rateLimit rlStore ip now 100 (15 * 60 * 1000)
  if rl.1.allowed = false then
    (setSecurityHeaders (jsonResponse 429 "Too many requests. Please try again later."),
     rl.2)
  else
    match cookieToken with
    | none => (setSecurityHeaders (jsonResponse 401 "Unauthorized"), rl.2)
    | some token =>
        if token = "" then
          (setSecurityHeaders (jsonResponse 401 "Unauthorized"), rl.2)
        else
          match (verifySession db now token).1 with
          | none => (setSecurityHeaders (jsonResponse 401 "Unauthorized"), rl.2)
          | some _ =>
              match opResult with
              | .error _ =>
                  (setSecurityHeaders (jsonResponse 500 "Failed to retrieve texts"), rl.2)
              | .ok bodyJson =>
                  (setSecurityHeaders (jsonResponse 200 bodyJson), rl.2)

/-! ## Branch lemmas for `login` -/

lemma login_notfound (db : DB) (verify : String → String → Bool) (now : Nat)
    (entropy : List Nat) (username password : String) (ip ua : Option String)
    (hfind : db.users.find? (fun r => r.username == username) = none) :
    login db verify now entropy username password ip ua
      = (.error .invalidCredentials, db) := by
  simp only [login, hfind]

lemma login_locked (db : DB) (verify : String → String → Bool) (now : Nat)
    (entropy : List Nat) (username password : String) (ip ua : Option String)
    (u : UserRow) (t : Nat)
    (hfind : db.users.find? (fun r => r.username == username) = some u)
    (hlock : u.locked_until = some t) (hfut : now < t) :
    login db verify now entropy username password ip ua
      = (.error (.accountLocked (ceilMinutes (t - now))), db) := by
  simp only [login, hfind, lockedRemaining, hlock, if_pos hfut]

lemma login_fail (db : DB) (verify : String → String → Bool) (now : Nat)
    (entropy : List Nat) (username password : String) (ip ua : Option String)
    (u : UserRow)
    (hfind : db.users.find? (fun r => r.username == username) = some u)
    (hnl : lockedRemaining u now = none)
    (hwrong : verify password u.password_hash = false) :
    login db verify now entropy username password ip ua
      = (.error .invalidCredentials,
         ⟨db.users.map (fun r =>
            if r.id = u.id then
              { r with failed_login_attempts := u.failed_login_attempts + 1,
                       locked_until :=
                         if u.failed_login_attempts + 1 ≥ MAX_FAILED_ATTEMPTS
                           then some (now + LOCKOUT_DURATION_MS) else none }
            else r),
          db.sessions⟩) := by
  simp only [login, hfind, hnl, hwrong]
  simp

lemma login_ok (db : DB) (verify : String → String → Bool) (now : Nat)
    (entropy : List Nat) (username password : String) (ip ua : Option String)
    (u : UserRow)
    (hfind : db.users.find? (fun r => r.username == username) = some u)
    (hnl : lockedRemaining u now = none)
    (hok : verify password u.password_hash = true) :
    login db verify now entropy username password ip ua
      = (.ok ⟨⟨u.id, u.username, u.created_at⟩, generateSessionToken entropy⟩,
         ⟨db.users.map (fun r =>
            if r.id = u.id then
              { r with failed_login_attempts := 0, locked_until := none,
                       last_login := some now }
            else r),
          db.sessions ++
            [⟨u.id, generateSessionToken entropy, now + SESSION_DURATION_MS, ip, ua⟩]⟩) := by
  simp only [login, hfind, hnl, hok]
  simp

/-! ## Claim C4: per-call contract of `rateLimit` -/

/-- **C4.** For every call `rateLimit(key, maxRequests, windowMs)`: if no
record exists for the key or the current time has passed the stored
`resetTime`, a fresh record with `count = 1` and
`resetTime = now + windowMs` is stored and the call returns
`allowed = true` with `remaining = maxRequests - 1`; otherwise, if the
stored count is at least `maxRequests`, the call returns `allowed = false`
with `remaining = 0` and the stored count is not incremented (the store is
untouched); otherwise the count is incremented and the call returns
`allowed = true` with `remaining = maxRequests - count`. -/
theorem rateLimit_spec (store : RateLimitStore) (ip : String)
    (now maxRequests windowMs : Nat) :
    ((storeGet store ip = none ∨
        ∃ r, storeGet store ip = some r ∧ now > r.resetTime) →
      (rateLimit store ip now maxRequests windowMs).1
          = ⟨true, (maxRequests : Int) - 1, now + windowMs⟩ ∧
      storeGet (rateLimit store ip now maxRequests windowMs).2 ip
          = some ⟨1, now + windowMs⟩) ∧
    (∀ r, storeGet store ip = some r → now ≤ r.resetTime →
        maxRequests ≤ r.count →
      (rateLimit store ip now maxRequests windowMs).1 = ⟨false, 0, r.resetTime⟩ ∧
      (rateLimit store ip now maxRequests windowMs).2 = store) ∧
    (∀ r, storeGet store ip = some r → now ≤ r.resetTime →
        r.count < maxRequests →
      (rateLimit store ip now maxRequests windowMs).1
          = ⟨true, (maxRequests : Int) - (r.count + 1), r.resetTime⟩ ∧
      storeGet (rateLimit store ip now maxRequests windowMs).2 ip
          = some ⟨r.count + 1, r.resetTime⟩) := by
  refine ⟨?_, ?_, ?_⟩
  · rintro (hnone | ⟨r, hget, hexp⟩)
    · exact rateLimit_fresh_none store ip now maxRequests windowMs hnone
    · exact rateLimit_fresh_expired store ip now maxRequests windowMs r hget hexp
  · intro r hget hlive hfull
    rw [rateLimit_reject store ip now maxRequests windowMs r hget hlive hfull]
    exact ⟨rfl, rfl⟩
  · intro r hget hlive hroom
    rw [rateLimit_increment store ip now maxRequests windowMs r hget hlive hroom]
    exact ⟨rfl, storeGet_storeSet_self store ip _⟩

/-- Witness for C4 at a concrete input (fresh key). -/
theorem rateLimit_spec_witness :
    (rateLimit [] "1.2.3.4" 0 5 1000).1 = ⟨true, (5 : Int) - 1, 0 + 1000⟩ ∧
    storeGet (rateLimit [] "1.2.3.4" 0 5 1000).2 "1.2.3.4" = some ⟨1, 0 + 1000⟩ :=
  (rateLimit_spec [] "1.2.3.4" 0 5 1000).1 (Or.inl rfl)

/-! ## Claim C1: the two budgets do NOT use separate counter buckets -/

/-- **C1 is false on the code.**  The claim says the authentication budget
(5 / 15 min) lives in a counter bucket logically separate from the general
budget (100 / 15 min) for the same client key, so that calls counted
against one budget leave the other bucket's count unchanged.  In the code
`rateLimitStore` is keyed by the client IP alone; both budget classes read
and write the same record.  Concretely: from a fresh client, five calls
counted against the general budget (maxRequests = 100) drive the shared
count to 5, after which the client's very first authentication-class call
(maxRequests = 5) is rejected — under separate buckets a first call on a
fresh bucket is always allowed. -/
theorem rateLimit_buckets_not_separate :
    (rateLimit (rateLimit (rateLimit (rateLimit (rateLimit
        (rateLimit [] "1.2.3.4" 0 100 900000).2
        "1.2.3.4" 0 100 900000).2
        "1.2.3.4" 0 100 900000).2
        "1.2.3.4" 0 100 900000).2
        "1.2.3.4" 0 100 900000).2
      "1.2.3.4" 0 5 900000).1.allowed = false := by decide

/-- **C1 (amended).**  The rate limiter keys its store by client IP only:
the authentication budget and the general budget share one counter bucket
per client.  A call counted against the general budget (100 / 15 min)
increments exactly the record that the authentication-budget check reads,
and once that shared count has reached 5 the next authentication-class
call (maxRequests = 5) is rejected. -/
theorem rateLimit_shared_bucket (store : RateLimitStore) (ip : String) (now : Nat)
    (r : RLRecord) (hget : storeGet store ip = some r)
    (hlive : now ≤ r.resetTime) (hroom : r.count < 100) :
    storeGet (rateLimit store ip now 100 RATE_LIMIT_WINDOW_MS).2 ip
        = some ⟨r.count + 1, r.resetTime⟩ ∧
    (4 ≤ r.count →
      (rateLimit (rateLimit store ip now 100 RATE_LIMIT_WINDOW_MS).2 ip now 5
          RATE_LIMIT_WINDOW_MS).1.allowed = false) := by
  have h1 := rateLimit_increment store ip now 100 RATE_LIMIT_WINDOW_MS r hget hlive hroom
  constructor
  · rw [h1]
    exact storeGet_storeSet_self store ip _
  · intro h4
    rw [h1]
    rw [rateLimit_reject (storeSet store ip ⟨r.count + 1, r.resetTime⟩) ip now 5
      RATE_LIMIT_WINDOW_MS ⟨r.count + 1, r.resetTime⟩
      (storeGet_storeSet_self store ip _) hlive (by show 5 ≤ r.count + 1; omega)]

/-- Witness for the amended C1 at a concrete input. -/
theorem rateLimit_shared_bucket_witness :
    storeGet (rateLimit [("k", ⟨4, 100⟩)] "k" 0 100 RATE_LIMIT_WINDOW_MS).2 "k"
        = some ⟨4 + 1, 100⟩ ∧
    (4 ≤ 4 →
      (rateLimit (rateLimit [("k", ⟨4, 100⟩)] "k" 0 100 RATE_LIMIT_WINDOW_MS).2 "k" 0 5
          RATE_LIMIT_WINDOW_MS).1.allowed = false) :=
  rateLimit_shared_bucket [("k", ⟨4, 100⟩)] "k" 0 ⟨4, 100⟩ (by decide) (by decide)
    (by decide)

/-! ## Claim C10: `sanitizeInput` falls back to the unsanitized original -/

lemma exists_false_mem_dropWhile {α : Type} (p : α → Bool) (l : List α)
    (h : ∃ x ∈ l, p x = false) : ∃ x ∈ l.dropWhile p, p x = false := by
  induction l with
  | nil => simp at h
  | cons a t ih =>
      rcases h with ⟨x, hx, hpx⟩
      rw [List.mem_cons] at hx
      by_cases ha : p a
      · rw [List.dropWhile_cons, if_pos ha]
        apply ih
        rcases hx with rfl | hx
        · rw [hpx] at ha
          exact absurd ha (by simp)
        · exact ⟨x, hx, hpx⟩
      · rw [List.dropWhile_cons, if_neg ha]
        exact ⟨a, List.mem_cons_self a t, by simpa using ha⟩

lemma jsTrim_length_ne_zero (s : String)
    (h : ∃ c ∈ s.toList, isJsWhitespace c = false) : (jsTrim s).length ≠ 0 := by
  have h2 : ∃ c ∈ (s.toList.dropWhile isJsWhitespace).reverse,
      isJsWhitespace c = false := by
    rcases exists_false_mem_dropWhile isJsWhitespace s.toList h with ⟨c, hc, hpc⟩
    exact ⟨c, List.mem_reverse.mpr hc, hpc⟩
  rcases exists_false_mem_dropWhile isJsWhitespace _ h2 with ⟨c, hc, _⟩
  have hne := List.ne_nil_of_mem hc
  show (((s.toList.dropWhile isJsWhitespace).reverse.dropWhile
      isJsWhitespace).reverse).length ≠ 0
  simpa using hne

/-- **C10.**  For every non-empty (and length-admissible) input whose
characters are all removable control characters and at least one of which
is not JavaScript whitespace (so the original does not trim to empty —
e.g. any input containing a NUL byte), `sanitizeInput` returns the
original input unchanged: its result is then not free of null bytes or
control characters. -/
theorem sanitizeInput_fallback (input : String) (maxLength : Nat)
    (hne : input ≠ "") (hlen : input.length ≤ maxLength)
    (hall : ∀ c ∈ input.toList, removableControl c = true)
    (hvis : ∃ c ∈ input.toList, isJsWhitespace c = false) :
    sanitizeInput input maxLength = .ok input := by
  unfold sanitizeInput
  rw [if_neg hne, if_neg (by omega)]
  have hfilter : input.toList.filter (fun c => !(removableControl c)) = [] := by
    rw [List.filter_eq_nil_iff]
    intro c hc
    simp [hall c hc]
  simp only [hfilter]
  rw [if_pos ⟨rfl, jsTrim_length_ne_zero input hvis⟩]

/-- Witness for C10: a single NUL byte comes back unchanged. -/
theorem sanitizeInput_fallback_witness :
    sanitizeInput "\x00" 10000 = .ok "\x00" :=
  sanitizeInput_fallback "\x00" 10000 (by decide) (by decide) (by decide) (by decide)

/-! ## Claim C3: five failures lock, the sixth is refused untouched -/

/-- One wrong-password attempt against a single-user store: the counter
goes up by exactly one and `locked_until` is set exactly when the new
count reaches 5. -/
lemma login_fail_singleton (id ca : Nat) (ll : Option Nat)
    (username hash password : String) (failed : Nat)
    (verify : String → String → Bool) (now : Nat) (entropy : List Nat)
    (ip ua : Option String)
    (hwrong : verify password hash = false) :
    login ⟨[⟨id, username, hash, failed, none, ca, ll⟩], []⟩ verify now entropy
        username password ip ua
      = (.error .invalidCredentials,
         ⟨[⟨id, username, hash, failed + 1,
            if failed + 1 ≥ 5 then some (now + 900000) else none, ca, ll⟩], []⟩) := by
  rw [login_fail ⟨[⟨id, username, hash, failed, none, ca, ll⟩], []⟩ verify now entropy
    username password ip ua ⟨id, username, hash, failed, none, ca, ll⟩
    (by simp) (by simp [lockedRemaining]) hwrong]
  simp [MAX_FAILED_ATTEMPTS, LOCKOUT_DURATION_MS]

/-- **C3.**  Starting from a user with zero failed attempts and no
lockout, five consecutive failed logins set `locked_until` to
now + 15 minutes — each failure incrementing `failed_login_attempts` by
exactly 1 with `locked_until` staying `none` while the count is below 5 —
and a sixth attempt made before `locked_until` fails with `AccountLocked`
carrying the remaining minutes rounded up, leaves the store untouched (no
further increment), and does not invoke password verification: the sixth
call's outcome is stated for an arbitrary verifier `verify6` and arbitrary
entropy. -/
theorem login_lockout_progression (id ca : Nat) (ll : Option Nat)
    (username hash password : String) (verify verify6 : String → String → Bool)
    (now now6 : Nat) (entropy entropy6 : List Nat) (ip ua : Option String)
    (hwrong : verify password hash = false)
    (hsixth : now ≤ now6) (hbefore : now6 < now + 900000) :
    login ⟨[⟨id, username, hash, 0, none, ca, ll⟩], []⟩ verify now entropy
        username password ip ua
      = (.error .invalidCredentials,
         ⟨[⟨id, username, hash, 1, none, ca, ll⟩], []⟩) ∧
    login ⟨[⟨id, username, hash, 1, none, ca, ll⟩], []⟩ verify now entropy
        username password ip ua
      = (.error .invalidCredentials,
         ⟨[⟨id, username, hash, 2, none, ca, ll⟩], []⟩) ∧
    login ⟨[⟨id, username, hash, 2, none, ca, ll⟩], []⟩ verify now entropy
        username password ip ua
      = (.error .invalidCredentials,
         ⟨[⟨id, username, hash, 3, none, ca, ll⟩], []⟩) ∧
    login ⟨[⟨id, username, hash, 3, none, ca, ll⟩], []⟩ verify now entropy
        username password ip ua
      = (.error .invalidCredentials,
         ⟨[⟨id, username, hash, 4, none, ca, ll⟩], []⟩) ∧
    login ⟨[⟨id, username, hash, 4, none, ca, ll⟩], []⟩ verify now entropy
        username password ip ua
      = (.error .invalidCredentials,
         ⟨[⟨id, username, hash, 5, some (now + 900000), ca, ll⟩], []⟩) ∧
    login ⟨[⟨id, username, hash, 5, some (now + 900000), ca, ll⟩], []⟩ verify6 now6
        entropy6 username password ip ua
      = (.error (.accountLocked (ceilMinutes (now + 900000 - now6))),
         ⟨[⟨id, username, hash, 5, some (now + 900000), ca, ll⟩], []⟩) ∧
    1 ≤ ceilMinutes (now + 900000 - now6) ∧
    ceilMinutes (now + 900000 - now6) ≤ 15 := by
  refine ⟨?_, ?_, ?_, ?_, ?_, ?_, ?_, ?_⟩
  · have h := login_fail_singleton id ca ll username hash password 0 verify now
      entropy ip ua hwrong
    simpa using h
  · have h := login_fail_singleton id ca ll username hash password 1 verify now
      entropy ip ua hwrong
    simpa using h
  · have h := login_fail_singleton id ca ll username hash password 2 verify now
      entropy ip ua hwrong
    simpa using h
  · have h := login_fail_singleton id ca ll username hash password 3 verify now
      entropy ip ua hwrong
    simpa using h
  · have h := login_fail_singleton id ca ll username hash password 4 verify now
      entropy ip ua hwrong
    simpa using h
  · exact login_locked ⟨[⟨id, username, hash, 5, some (now + 900000), ca, ll⟩], []⟩
      verify6 now6 entropy6 username password ip ua
      ⟨id, username, hash, 5, some (now + 900000), ca, ll⟩ (now + 900000)
      (by simp) rfl hbefore
  · unfold ceilMinutes
    omega
  · unfold ceilMinutes
    omega

/-- Witness for C3 at a concrete input.  The sixth call uses a verifier
that accepts everything, showing password verification cannot have been
consulted. -/
theorem login_lockout_progression_witness :
    login ⟨[⟨1, "alice", "h", 0, none, 0, none⟩], []⟩ (fun _ _ => false) 0 []
        "alice" "pw" none none
      = (.error .invalidCredentials, ⟨[⟨1, "alice", "h", 1, none, 0, none⟩], []⟩) ∧
    login ⟨[⟨1, "alice", "h", 1, none, 0, none⟩], []⟩ (fun _ _ => false) 0 []
        "alice" "pw" none none
      = (.error .invalidCredentials, ⟨[⟨1, "alice", "h", 2, none, 0, none⟩], []⟩) ∧
    login ⟨[⟨1, "alice", "h", 2, none, 0, none⟩], []⟩ (fun _ _ => false) 0 []
        "alice" "pw" none none
      = (.error .invalidCredentials, ⟨[⟨1, "alice", "h", 3, none, 0, none⟩], []⟩) ∧
    login ⟨[⟨1, "alice", "h", 3, none, 0, none⟩], []⟩ (fun _ _ => false) 0 []
        "alice" "pw" none none
      = (.error .invalidCredentials, ⟨[⟨1, "alice", "h", 4, none, 0, none⟩], []⟩) ∧
    login ⟨[⟨1, "alice", "h", 4, none, 0, none⟩], []⟩ (fun _ _ => false) 0 []
        "alice" "pw" none none
      = (.error .invalidCredentials,
         ⟨[⟨1, "alice", "h", 5, some (0 + 900000), 0, none⟩], []⟩) ∧
    login ⟨[⟨1, "alice", "h", 5, some (0 + 900000), 0, none⟩], []⟩ (fun _ _ => true)
        60000 [] "alice" "pw" none none
      = (.error (.accountLocked (ceilMinutes (0 + 900000 - 60000))),
         ⟨[⟨1, "alice", "h", 5, some (0 + 900000), 0, none⟩], []⟩) ∧
    1 ≤ ceilMinutes (0 + 900000 - 60000) ∧
    ceilMinutes (0 + 900000 - 60000) ≤ 15 :=
  login_lockout_progression 1 0 none "alice" "h" "pw" (fun _ _ => false)
    (fun _ _ => true) 0 60000 [] [] none none rfl (by omega) (by omega)

/-! ## Claim C5: successful login resets state and issues a session -/

/-- **C5.**  For every successful login (user found, not currently locked,
password verifies) the operation resets `failed_login_attempts` to 0,
clears `locked_until`, stamps `last_login` to `now`, appends a session row
with `expires_at = now + 24h` and the supplied client metadata, and
returns the user's id and username with a session token that is the hex
encoding of the 32 supplied random bytes — 64 characters, all lowercase
hexadecimal, a function of the entropy alone and of no user-controlled
data.  Rows of other users are untouched. -/
theorem login_success_spec (db : DB) (verify : String → String → Bool) (now : Nat)
    (entropy : List Nat) (username password : String) (ip ua : Option String)
    (u : UserRow)
    (hfind : db.users.find? (fun r => r.username == username) = some u)
    (hnl : lockedRemaining u now = none)
    (hok : verify password u.password_hash = true)
    (hlen : entropy.length = 32) (hbytes : ∀ b ∈ entropy, b < 256) :
    (login db verify now entropy username password ip ua).1
        = .ok ⟨⟨u.id, u.username, u.created_at⟩, generateSessionToken entropy⟩ ∧
    (generateSessionToken entropy).length = 64 ∧
    (∀ c ∈ (generateSessionToken entropy).toList, isHexDigit c = true) ∧
    (login db verify now entropy username password ip ua).2.sessions
        = db.sessions ++
          [⟨u.id, generateSessionToken entropy, now + SESSION_DURATION_MS, ip, ua⟩] ∧
    (∀ r ∈ (login db verify now entropy username password ip ua).2.users,
        r.id = u.id →
        r.failed_login_attempts = 0 ∧ r.locked_until = none ∧
        r.last_login = some now) ∧
    (∀ r ∈ (login db verify now entropy username password ip ua).2.users,
        r.id ≠ u.id → r ∈ db.users) := by
  have h := login_ok db verify now entropy username password ip ua u hfind hnl hok
  refine ⟨by rw [h], ?_, ?_, by rw [h], ?_, ?_⟩
  · show (hexEncode entropy).length = 64
    rw [hexEncode_length, hlen]
  · exact hexEncode_all_hex entropy hbytes
  · rw [h]
    intro r hr hid
    rcases List.mem_map.mp hr with ⟨x, hx, hfx⟩
    by_cases hxid : x.id = u.id
    · rw [if_pos hxid] at hfx
      rw [← hfx]
      exact ⟨rfl, rfl, rfl⟩
    · rw [if_neg hxid] at hfx
      rw [← hfx] at hid
      exact absurd hid hxid
  · rw [h]
    intro r hr hid
    rcases List.mem_map.mp hr with ⟨x, hx, hfx⟩
    by_cases hxid : x.id = u.id
    · rw [if_pos hxid] at hfx
      rw [← hfx] at hid
      exact absurd hxid hid
    · rw [if_neg hxid] at hfx
      rw [← hfx]
      exact hx

/-- Witness for C5 at a concrete input. -/
theorem login_success_spec_witness :
    (login ⟨[⟨1, "alice", "h", 3, none, 0, none⟩], []⟩ (fun _ _ => true) 7
        (List.replicate 32 0) "alice" "pw" (some "9.9.9.9") (some "UA")).1
        = .ok ⟨⟨1, "alice", 0⟩, generateSessionToken (List.replicate 32 0)⟩ ∧
    (generateSessionToken (List.replicate 32 0)).length = 64 ∧
    (∀ c ∈ (generateSessionToken (List.replicate 32 0)).toList,
        isHexDigit c = true) ∧
    (login ⟨[⟨1, "alice", "h", 3, none, 0, none⟩], []⟩ (fun _ _ => true) 7
        (List.replicate 32 0) "alice" "pw" (some "9.9.9.9") (some "UA")).2.sessions
        = [] ++ [⟨1, generateSessionToken (List.replicate 32 0),
            7 + SESSION_DURATION_MS, some "9.9.9.9", some "UA"⟩] ∧
    (∀ r ∈ (login ⟨[⟨1, "alice", "h", 3, none, 0, none⟩], []⟩ (fun _ _ => true) 7
        (List.replicate 32 0) "alice" "pw" (some "9.9.9.9") (some "UA")).2.users,
        r.id = 1 →
        r.failed_login_attempts = 0 ∧ r.locked_until = none ∧
        r.last_login = some 7) ∧
    (∀ r ∈ (login ⟨[⟨1, "alice", "h", 3, none, 0, none⟩], []⟩ (fun _ _ => true) 7
        (List.replicate 32 0) "alice" "pw" (some "9.9.9.9") (some "UA")).2.users,
        r.id ≠ 1 → r ∈ [⟨1, "alice", "h", 3, none, 0, none⟩]) :=
  login_success_spec ⟨[⟨1, "alice", "h", 3, none, 0, none⟩], []⟩ (fun _ _ => true) 7
    (List.replicate 32 0) "alice" "pw" (some "9.9.9.9") (some "UA")
    ⟨1, "alice", "h", 3, none, 0, none⟩ (by decide) rfl rfl (by decide) (by decide)

/-! ## Claim C6: `verifySession` fails softly and writes nothing -/

/-- **C6.**  For every token, `verifySession` returns an absent result
(not an error) whenever the token is empty, or every session row bearing
the token — including none at all — has `expires_at ≤ now`, even while
such an expired row still exists in the store; and it performs no write:
the store it leaves behind is the store it was given, so in particular no
session's `expires_at` is ever extended. -/
theorem verifySession_soft_fail (db : DB) (now : Nat) (token : String) :
    (token = "" → (verifySession db now token).1 = none) ∧
    ((∀ s ∈ db.sessions, s.session_token = token → s.expires_at ≤ now) →
        (verifySession db now token).1 = none) ∧
    (verifySession db now token).2 = db := by
  refine ⟨?_, ?_, ?_⟩
  · intro h
    simp [verifySession, h]
  · intro h
    by_cases he : token = ""
    · simp [verifySession, he]
    · have hfind : db.sessions.find? (fun s =>
          s.session_token == token && decide (now < s.expires_at)) = none := by
        rw [List.find?_eq_none]
        intro s hs
        simp only [Bool.and_eq_true, beq_iff_eq, decide_eq_true_eq, not_and]
        intro htok hlt
        exact absurd (h s hs htok) (by omega)
      simp [verifySession, he, hfind]
  · unfold verifySession
    split
    · rfl
    · split
      · rfl
      · split <;> rfl

/-- Witness for C6: a row whose expiry is one millisecond in the past is
still in the store, yet the lookup is absent and the store untouched. -/
theorem verifySession_soft_fail_witness :
    (verifySession ⟨[], [⟨1, "tok", 1000, none, none⟩]⟩ 1001 "tok").1 = none ∧
    (verifySession ⟨[], [⟨1, "tok", 1000, none, none⟩]⟩ 1001 "tok").2
      = ⟨[], [⟨1, "tok", 1000, none, none⟩]⟩ :=
  ⟨(verifySession_soft_fail ⟨[], [⟨1, "tok", 1000, none, none⟩]⟩ 1001 "tok").2.1
      (by decide),
   (verifySession_soft_fail ⟨[], [⟨1, "tok", 1000, none, none⟩]⟩ 1001 "tok").2.2⟩

/-! ## Claim C7: unknown username and wrong password are indistinguishable -/

/-- **C7.**  For every username not present in the store, `login` fails
with the same error kind — `invalidCredentials` — and therefore the same
message as a wrong-password failure for an existing (unlocked) user: no
response difference reveals whether the username exists. -/
theorem login_user_enumeration (db : DB) (verify : String → String → Bool)
    (now : Nat) (entropy : List Nat) (ghost pwd1 uname pwd2 : String)
    (ip ua : Option String) (u : UserRow)
    (habsent : db.users.find? (fun r => r.username == ghost) = none)
    (hfind : db.users.find? (fun r => r.username == uname) = some u)
    (hnl : lockedRemaining u now = none)
    (hwrong : verify pwd2 u.password_hash = false) :
    (login db verify now entropy ghost pwd1 ip ua).1
        = .error .invalidCredentials ∧
    (login db verify now entropy uname pwd2 ip ua).1
        = .error .invalidCredentials ∧
    LoginError.message .invalidCredentials = "Invalid credentials" := by
  refine ⟨?_, ?_, rfl⟩
  · rw [login_notfound db verify now entropy ghost pwd1 ip ua habsent]
  · rw [login_fail db verify now entropy uname pwd2 ip ua u hfind hnl hwrong]

/-- Witness for C7 at a concrete store. -/
theorem login_user_enumeration_witness :
    (login ⟨[⟨1, "alice", "h", 0, none, 0, none⟩], []⟩ (fun _ _ => false) 0 []
        "bob" "x" none none).1 = .error .invalidCredentials ∧
    (login ⟨[⟨1, "alice", "h", 0, none, 0, none⟩], []⟩ (fun _ _ => false) 0 []
        "alice" "wrong" none none).1 = .error .invalidCredentials ∧
    LoginError.message .invalidCredentials = "Invalid credentials" :=
  login_user_enumeration ⟨[⟨1, "alice", "h", 0, none, 0, none⟩], []⟩
    (fun _ _ => false) 0 [] "bob" "x" "alice" "wrong" none none
    ⟨1, "alice", "h", 0, none, 0, none⟩ (by decide) (by decide) rfl rfl

/-! ## Claim C8: after the lockout elapses, one more failure re-locks -/

/-- **C8 is false on the code.**  The claim says a user whose lockout has
elapsed with `failed_login_attempts` at 5 is locked again only after five
more failed attempts.  In the code the counter is never reset by time, so
the very next failure makes the count 6 ≥ 5 and immediately sets
`locked_until` again: at `now = 200` with the lock expired at 100, a
single wrong-password attempt leaves the row with 6 failures and
`locked_until = 900200`. -/
theorem relock_counterexample :
    (login ⟨[⟨1, "alice", "h", 5, some 100, 0, none⟩], []⟩ (fun _ _ => false) 200 []
        "alice" "pw" none none).1 = .error .invalidCredentials ∧
    (login ⟨[⟨1, "alice", "h", 5, some 100, 0, none⟩], []⟩ (fun _ _ => false) 200 []
        "alice" "pw" none none).2
      = ⟨[⟨1, "alice", "h", 6, some 900200, 0, none⟩], []⟩ := ⟨rfl, rfl⟩

/-- **C8 (amended).**  For a user whose lockout window has elapsed
(`locked_until` in the past) with at least 4 accumulated failures — in the
claim's scenario, exactly 5 — every single further wrong-password attempt
immediately re-locks the account for another 15 minutes while incrementing
the counter, because the counter is cleared only by a successful login,
never by the passage of time. -/
theorem relock_immediately (db : DB) (verify : String → String → Bool)
    (now : Nat) (entropy : List Nat) (username password : String)
    (ip ua : Option String) (u : UserRow) (t : Nat)
    (hfind : db.users.find? (fun r => r.username == username) = some u)
    (hlock : u.locked_until = some t) (helapsed : t ≤ now)
    (hfailed : 4 ≤ u.failed_login_attempts)
    (hwrong : verify password u.password_hash = false) :
    (login db verify now entropy username password ip ua).1
        = .error .invalidCredentials ∧
    ∀ r ∈ (login db verify now entropy username password ip ua).2.users,
        r.id = u.id →
        r.failed_login_attempts = u.failed_login_attempts + 1 ∧
        r.locked_until = some (now + LOCKOUT_DURATION_MS) := by
  have hnl : lockedRemaining u now = none := by
    simp only [lockedRemaining, hlock]
    rw [if_neg (by omega)]
  have h := login_fail db verify now entropy username password ip ua u hfind hnl hwrong
  refine ⟨by rw [h], ?_⟩
  rw [h]
  intro r hr hid
  rcases List.mem_map.mp hr with ⟨x, hx, hfx⟩
  by_cases hxid : x.id = u.id
  · rw [if_pos hxid] at hfx
    rw [← hfx]
    refine ⟨rfl, ?_⟩
    show (if u.failed_login_attempts + 1 ≥ MAX_FAILED_ATTEMPTS
        then some (now + LOCKOUT_DURATION_MS) else none)
      = some (now + LOCKOUT_DURATION_MS)
    rw [if_pos (by unfold MAX_FAILED_ATTEMPTS; omega)]
  · rw [if_neg hxid] at hfx
    rw [← hfx] at hid
    exact absurd hid hxid

/-- Witness for the amended C8 at a concrete input. -/
theorem relock_immediately_witness :
    (login ⟨[⟨1, "alice", "h", 5, some 100, 0, none⟩], []⟩ (fun _ _ => false) 200 []
        "alice" "pw" none none).1 = .error .invalidCredentials ∧
    ∀ r ∈ (login ⟨[⟨1, "alice", "h", 5, some 100, 0, none⟩], []⟩ (fun _ _ => false)
        200 [] "alice" "pw" none none).2.users,
        r.id = 1 →
        r.failed_login_attempts = 5 + 1 ∧
        r.locked_until = some (200 + LOCKOUT_DURATION_MS) :=
  relock_immediately ⟨[⟨1, "alice", "h", 5, some 100, 0, none⟩], []⟩
    (fun _ _ => false) 200 [] "alice" "pw" none none
    ⟨1, "alice", "h", 5, some 100, 0, none⟩ 100 (by decide) rfl (by omega)
    (by decide) rfl

/-! ## Claim C2: what leaves the login entry point when the account is locked -/

set_option maxRecDepth 8192 in
/-- **C2 is false on the code.**  The claim says the error leaving the
login entry point for a locked account carries the remaining-lockout
minutes while every other error collapses to a generic message.  The
route's `catch` collapses *every* thrown error — `AccountLocked`
included — to the fixed `401 Invalid credentials` response.  Concretely:
with the account locked for another 10 minutes, the core `login` throws
`AccountLocked 10`, yet the response leaving `POST /api/auth/login` is
status 401 with the generic body, carrying no minutes value. -/
theorem login_route_locked_collapsed :
    (login ⟨[⟨1, "alice", "h", 0, some 600000, 0, none⟩], []⟩ (fun _ _ => false) 0 []
        "alice" "pw" (some "9.9.9.9") none).1 = .error (.accountLocked 10) ∧
    (loginRoutePOST [] ⟨[⟨1, "alice", "h", 0, some 600000, 0, none⟩], []⟩
        (fun _ _ => false) 0 [] "9.9.9.9" (.fields "alice" "pw") none).1.status
      = 401 ∧
    (loginRoutePOST [] ⟨[⟨1, "alice", "h", 0, some 600000, 0, none⟩], []⟩
        (fun _ _ => false) 0 [] "9.9.9.9" (.fields "alice" "pw") none).1.body
      = "Invalid credentials" := ⟨rfl, rfl, rfl⟩

/-- **C2 (amended).**  For every login request that fails because the
account is locked (with the lock expiring within the 15-minute lockout
horizon), the error thrown by the core `login` function carries the
remaining-lockout-minutes value, positive and at most 15 — but the HTTP
login entry point then collapses this error, like every other error, to
the one fixed, generic, user-safe response: status 401, body
`Invalid credentials`.  No remaining-minutes value leaves the route. -/
theorem login_route_error_collapse (rlStore : RateLimitStore) (db : DB)
    (verify : String → String → Bool) (now : Nat) (entropy : List Nat)
    (ip username password : String) (ua : Option String) (u : UserRow) (t : Nat)
    (hfind : db.users.find? (fun r => r.username == username) = some u)
    (hlock : u.locked_until = some t) (hfut : now < t)
    (hnear : t ≤ now + 900000)
    (hrl : (rateLimit rlStore ip now 5 (15 * 60 * 1000)).1.allowed = true)
    (hu : username ≠ "") (hp : password ≠ "")
    (hsan : sanitizeInput username 255 = .ok username) :
    (login db verify now entropy username password (some ip) ua).1
        = .error (.accountLocked (ceilMinutes (t - now))) ∧
    1 ≤ ceilMinutes (t - now) ∧ ceilMinutes (t - now) ≤ 15 ∧
    (loginRoutePOST rlStore db verify now entropy ip
        (.fields username password) ua).1.status = 401 ∧
    (loginRoutePOST rlStore db verify now entropy ip
        (.fields username password) ua).1.body = "Invalid credentials" := by
  have hlog := login_locked db verify now entropy username password (some ip) ua
    u t hfind hlock hfut
  have hroute : (loginRoutePOST rlStore db verify now entropy ip
      (.fields username password) ua).1
      = setSecurityHeaders (jsonResponse 401 "Invalid credentials") := by
    unfold loginRoutePOST
    rw [if_neg (by rw [hrl]; simp)]
    simp only []
    rw [if_neg (by simp [hu, hp])]
    rw [hsan]
    simp only []
    rw [hlog]
  refine ⟨by rw [hlog], ?_, ?_, by rw [hroute]; rfl, by rw [hroute]; rfl⟩
  · unfold ceilMinutes
    omega
  · unfold ceilMinutes
    omega

set_option maxRecDepth 8192 in
/-- Witness for the amended C2 at a concrete input. -/
theorem login_route_error_collapse_witness :
    (login ⟨[⟨1, "alice", "h", 0, some 600000, 0, none⟩], []⟩ (fun _ _ => false) 0 []
        "alice" "pw" (some "9.9.9.9") none).1
        = .error (.accountLocked (ceilMinutes (600000 - 0))) ∧
    1 ≤ ceilMinutes (600000 - 0) ∧ ceilMinutes (600000 - 0) ≤ 15 ∧
    (loginRoutePOST [] ⟨[⟨1, "alice", "h", 0, some 600000, 0, none⟩], []⟩
        (fun _ _ => false) 0 [] "9.9.9.9" (.fields "alice" "pw") none).1.status
      = 401 ∧
    (loginRoutePOST [] ⟨[⟨1, "alice", "h", 0, some 600000, 0, none⟩], []⟩
        (fun _ _ => false) 0 [] "9.9.9.9" (.fields "alice" "pw") none).1.body
      = "Invalid credentials" :=
  login_route_error_collapse [] ⟨[⟨1, "alice", "h", 0, some 600000, 0, none⟩], []⟩
    (fun _ _ => false) 0 [] "9.9.9.9" "alice" "pw" none
    ⟨1, "alice", "h", 0, some 600000, 0, none⟩ 600000 (by decide) rfl (by omega)
    (by omega) (by decide) (by decide) (by decide) rfl

/-! ## Claim C9: security headers on every path of the guarded handlers -/

/-- **C9.**  Every response returned by the guarded endpoint handlers — on
the success path and on every early-exit path (rate-limit 429,
missing/invalid-session 401, validation 400, internal 500, and the login
route's catch-all 401) — carries the fixed set of security headers; no
error path returns a response without them.  Stated over all inputs of
the login `POST` handler and the texts `GET` handler, which together
exercise every path class. -/
theorem routes_always_set_security_headers (rlStore : RateLimitStore) (db : DB)
    (verify : String → String → Bool) (now : Nat) (entropy : List Nat)
    (ip : String) (body : LoginBody) (ua : Option String)
    (cookieToken : Option String) (opResult : Except String String) :
    hasSecurityHeaders
        (loginRoutePOST rlStore db verify now entropy ip body ua).1 = true ∧
    hasSecurityHeaders (textsGET rlStore db now ip cookieToken opResult).1 = true := by
  constructor
  · show hasSecurityHeaders
      (if (rateLimit rlStore ip now 5 (15 * 60 * 1000)).1.allowed = false then
        (setSecurityHeaders
          (jsonResponse 429 "Too many login attempts. Please try again later."),
         (rateLimit rlStore ip now 5 (15 * 60 * 1000)).2, db)
      else
        match body with
        | .parseError =>
            (setSecurityHeaders (jsonResponse 401 "Invalid credentials"),
             (rateLimit rlStore ip now 5 (15 * 60 * 1000)).2, db)
        | .fields username password =>
            if username = "" ∨ password = "" then
              (setSecurityHeaders
                (jsonResponse 400 "Username and password are required"),
               (rateLimit rlStore ip now 5 (15 * 60 * 1000)).2, db)
            else
              match sanitizeInput username 255 with
              | .error _ =>
                  (setSecurityHeaders (jsonResponse 401 "Invalid credentials"),
                   (rateLimit rlStore ip now 5 (15 * 60 * 1000)).2, db)
              | .ok sanitizedUsername =>
                  match login db verify now entropy sanitizedUsername password
                      (some ip) ua with
                  | (.error _, db2) =>
                      (setSecurityHeaders (jsonResponse 401 "Invalid credentials"),
                       (rateLimit rlStore ip now 5 (15 * 60 * 1000)).2, db2)
                  | (.ok success, db2) =>
                      (setCookie
                        (setSecurityHeaders (jsonResponse 200 "Login successful"))
                        "session_token" success.sessionToken,
                       (rateLimit rlStore ip now 5 (15 * 60 * 1000)).2, db2)).1 = true
    split
    · exact hasSecurityHeaders_set_json _ _
    · split
      · exact hasSecurityHeaders_set_json _ _
      · split
        · exact hasSecurityHeaders_set_json _ _
        · split
          · exact hasSecurityHeaders_set_json _ _
          · split
            · exact hasSecurityHeaders_set_json _ _
            · rw [hasSecurityHeaders_setCookie]
              exact hasSecurityHeaders_set_json _ _
  · show hasSecurityHeaders
      (if (rateLimit rlStore ip now 100 (15 * 60 * 1000)).1.allowed = false then
        (setSecurityHeaders
          (jsonResponse 429 "Too many requests. Please try again later."),
         (rateLimit rlStore ip now 100 (15 * 60 * 1000)).2)
      else
        match cookieToken with
        | none =>
            (setSecurityHeaders (jsonResponse 401 "Unauthorized"),
             (rateLimit rlStore ip now 100 (15 * 60 * 1000)).2)
        | some token =>
            if token = "" then
              (setSecurityHeaders (jsonResponse 401 "Unauthorized"),
               (rateLimit rlStore ip now 100 (15 * 60 * 1000)).2)
            else
              match (verifySession db now token).1 with
              | none =>
                  (setSecurityHeaders (jsonResponse 401 "Unauthorized"),
                   (rateLimit rlStore ip now 100 (15 * 60 * 1000)).2)
              | some _ =>
                  match opResult with
                  | .error _ =>
                      (setSecurityHeaders (jsonResponse 500 "Failed to retrieve texts"),
                       (rateLimit rlStore ip now 100 (15 * 60 * 1000)).2)
                  | .ok bodyJson =>
                      (setSecurityHeaders (jsonResponse 200 bodyJson),
                       (rateLimit rlStore ip now 100 (15 * 60 * 1000)).2)).1 = true
    split
    · exact hasSecurityHeaders_set_json _ _
    · split
      · exact hasSecurityHeaders_set_json _ _
      · split
        · exact hasSecurityHeaders_set_json _ _
        · split
          · exact hasSecurityHeaders_set_json _ _
          · split
            · exact hasSecurityHeaders_set_json _ _
            · exact hasSecurityHeaders_set_json _ _

end SecureVault
